import Mathlib

/- Formal model of the task-manager service core: the service API key
lifecycle (generation, validation, rotation — app/auth.py and
app/routers/admin.py) and the universal command router with its task
handlers (app/commands/router.py, app/commands/handlers/tasks.py).
Timestamps are modelled as integers (seconds); database tables as lists
of rows in insertion order; SQL queries as the corresponding list
operations; raised exceptions as explicit error values.  Structured-log
calls are side-effect free and are dropped from the model. -/

/-- One row of the service_api_keys table (migration 3d76e0c7a711:
id UUID primary key, key_name, api_key, active, created_at, expires_at
nullable).  Row ids are modelled as naturals, timestamps as integers. -/
structure ServiceKeyRow where
  id : Nat
  key_name : String
  api_key : String
  active : Bool
  created_at : Int
  expires_at : Option Int
deriving DecidableEq, Repr

/-- An HTTPException value: status code and detail string. -/
structure HttpError where
  status : Nat
  detail : String
deriving DecidableEq, Repr

/-- The single undifferentiated 401 raised by validate_service_key
(app/auth.py lines 146-150). -/
def unauthorizedError : HttpError :=
  { status := 401, detail := "Invalid or expired service key" }

/-- The SQL usability predicate of validate_service_key:
active = true AND (expires_at IS NULL OR expires_at > NOW()). -/
def keyUsable (now : Int) (r : ServiceKeyRow) : Bool :=
  r.active && (match r.expires_at with
    | none => true
    | some t => decide (now < t))

/-- validate_service_key (app/auth.py lines 101-152): fetch the first row
with api_key = presented secret that is active and unexpired; return its
key_name, else raise the one 401 HTTPException. -/
def validate_service_key (store : List ServiceKeyRow) (now : Int)
    (presented : String) : Except HttpError String :=
  match store.find? (fun r => r.api_key == presented && keyUsable now r) with
  | some r => Except.ok r.key_name
  | none => Except.error unauthorizedError

/-- Lowercase hexadecimal digit for a value below 16 (as produced by
Python bytes.hex()). -/
def hexDigit (n : Nat) : Char :=
  if n < 10 then Char.ofNat (48 + n) else Char.ofNat (87 + n)

/-- Two lowercase hex characters encoding one byte. -/
def byteToHex (b : Nat) : List Char :=
  [hexDigit (b / 16), hexDigit (b % 16)]

/-- bytes.hex(): the 2n-character lowercase hex encoding of an n-byte
string (app/auth.py line 56). -/
def hexEncode (bs : List Nat) : String :=
  String.mk ((bs.map byteToHex).flatten)

/-- generate_service_key (app/auth.py lines 17-57): reject any
environment other than prod or dev with a ValueError naming the value
and the allowed set; otherwise return sk_{environment}_{hex of the 32
random bytes}.  The random draw is passed in explicitly; the function is
pure and touches no store. -/
def generate_service_key (environment : String) (randomBytes : List Nat) :
    Except String String :=
  if environment = "prod" ∨ environment = "dev" then
    Except.ok ("sk_" ++ environment ++ "_" ++ hexEncode randomBytes)
  else
    Except.error ("Invalid environment: " ++ environment ++
      ". Must be \x27prod\x27 or \x27dev\x27")

/-- Characters of a lowercase-hex payload. -/
def isHexLowerChar (c : Char) : Bool :=
  "0123456789abcdef".data.contains c

/-- Prefix of a character list up to (excluding) the first underscore. -/
def takeUntilUnderscore : List Char → List Char
  | [] => []
  | c :: cs => if c = '_' then [] else c :: takeUntilUnderscore cs

/-- Suffix of a character list after the first underscore (none when no
underscore occurs, where the Python indexing would raise IndexError). -/
def dropThroughUnderscore : List Char → Option (List Char)
  | [] => none
  | c :: cs => if c = '_' then some cs else dropThroughUnderscore cs

/-- The Python expression key.split(on underscore)[1] used by
rotate_service_key (app/routers/admin.py line 169): the text between the
first and the second underscore (or to the end when only one underscore
occurs); none when the index does not exist. -/
def extractEnv (key : String) : Option String :=
  (dropThroughUnderscore key.data).map (fun rest =>
    String.mk (takeUntilUnderscore rest))

/-- The rotation query SELECT api_key FROM service_api_keys WHERE
key_name = $1 AND active = true ORDER BY created_at DESC LIMIT 1
(app/routers/admin.py lines 154-158): among the active rows with the
given key_name, the one with the largest created_at (the earliest such
row when several tie, one deterministic choice of the order the database
leaves unspecified). -/
def selectActiveKey : List ServiceKeyRow → String → Option ServiceKeyRow
  | [], _ => none
  | r :: rest, k =>
    if r.key_name == k && r.active then
      match selectActiveKey rest k with
      | none => some r
      | some best => if r.created_at < best.created_at then some best else some r
    else selectActiveKey rest k

/-- Outcome of an admin endpoint call: a response value, an
HTTPException raised by the endpoint itself, or an exception the
endpoint does not catch, which escapes to the framework as an
infrastructure failure (HTTP 500), distinct from any domain error. -/
inductive AdminOutcome (α : Type) where
  | ok (v : α)
  | httpError (status : Nat) (detail : String)
  | raised (msg : String)
deriving DecidableEq, Repr

/-- Response body of POST /admin/service-keys (ServiceKeyCreateResponse,
served with HTTP 201): id, key_name, plaintext service_key, created_at. -/
structure ServiceKeyCreateResponse where
  id : Nat
  key_name : String
  service_key : String
  created_at : Int
deriving DecidableEq, Repr

/-- Response body of POST /admin/rotate-key (ServiceKeyRotateResponse):
the new plaintext key and the old key expiry. -/
structure ServiceKeyRotateResponse where
  new_key : String
  old_key_expires_at : Int
deriving DecidableEq, Repr

/-- The message of an asyncpg unique-constraint violation on insert. -/
def uniqueViolationMsg (constraint : String) : String :=
  "UniqueViolationError: duplicate key value violates unique constraint " ++
    constraint

/-- The grace period of rotation: 7 days, in seconds. -/
def gracePeriodSeconds : Int := 7 * 86400

/-- create_service_key (app/routers/admin.py lines 34-99).  The pre-check
SELECT runs against store; raceRows are rows committed by concurrent
transactions between the pre-check and the INSERT, so the INSERT (and
the unique constraints on key_name and api_key declared by migration
3d76e0c7a711) sees store ++ raceRows.  The endpoint catches nothing
around the INSERT, so a constraint violation escapes as AdminOutcome.raised.
Returns the outcome together with the resulting table state. -/
def create_service_key (store raceRows : List ServiceKeyRow)
    (key_name environment : String) (randomBytes : List Nat)
    (now : Int) (newId : Nat) :
    AdminOutcome ServiceKeyCreateResponse × List ServiceKeyRow :=
  if store.any (fun r => r.key_name == key_name) then
    (AdminOutcome.httpError 400
      ("Service key with name \x27" ++ key_name ++ "\x27 already exists"),
     store ++ raceRows)
  else
    match generate_service_key environment randomBytes with
    | Except.error msg => (AdminOutcome.raised msg, store ++ raceRows)
    | Except.ok service_key =>
      let committed := store ++ raceRows
      if committed.any (fun r => r.key_name == key_name) then
        (AdminOutcome.raised (uniqueViolationMsg "service_api_keys_key_name_key"),
         committed)
      else if committed.any (fun r => r.api_key == service_key) then
        (AdminOutcome.raised (uniqueViolationMsg "service_api_keys_api_key_key"),
         committed)
      else
        (AdminOutcome.ok ⟨newId, key_name, service_key, now⟩,
         committed ++ [⟨newId, key_name, service_key, true, now, none⟩])

/-- rotate_service_key (app/routers/admin.py lines 107-193): select the
latest created active row for key_name (404 naming the key when none),
recover the environment from the old secret text, generate a new secret,
set expires_at = now + 7 days on every row whose api_key equals the old
secret (its unique row, under the secret-uniqueness invariant), and
insert a new active non-expiring row with the same key_name.  The insert
is modelled as an append: the spec (section 3, Lifecycle) has old and
new rows legitimately sharing a key_name, and the migration revision
9301b389601e that the tasks migration revises — the revision between the
initial service_api_keys schema and the observed behavior, absent from
the sources — is what reconciles that with the initial unique
constraint. -/
def rotate_service_key (store : List ServiceKeyRow) (key_name : String)
    (randomBytes : List Nat) (now : Int) (newId : Nat) :
    AdminOutcome ServiceKeyRotateResponse × List ServiceKeyRow :=
  match selectActiveKey store key_name with
  | none =>
    (AdminOutcome.httpError 404
      ("Active service key \x27" ++ key_name ++ "\x27 not found"), store)
  | some row =>
    let old_key := row.api_key
    match extractEnv old_key with
    | none => (AdminOutcome.raised "IndexError: list index out of range", store)
    | some environment =>
      match generate_service_key environment randomBytes with
      | Except.error msg => (AdminOutcome.raised msg, store)
      | Except.ok new_key =>
        let expires_at := now + gracePeriodSeconds
        let store1 := store.map (fun r =>
          if r.api_key == old_key then { r with expires_at := some expires_at }
          else r)
        (AdminOutcome.ok ⟨new_key, expires_at⟩,
         store1 ++ [⟨newId, key_name, new_key, true, now, none⟩])

/-- CommandRequest (app/commands/models.py lines 20-51): action and
user_id are non-empty strings after structural validation, payload an
open mapping.  The payload type is a parameter; the router never looks
inside it. -/
structure CommandRequest (P : Type) where
  action : String
  user_id : String
  payload : P

/-- CommandResponse (app/commands/models.py lines 106-144): the uniform
envelope the router builds. -/
structure CommandResponse (A : Type) where
  success : Bool
  data : Option A
  error : Option String
  timestamp : Int
deriving DecidableEq, Repr

/-- What a handler invocation does, seen from the router's try/except
(app/commands/router.py lines 310-335): return a result, raise an
HTTPException (re-raised unchanged), or raise any other exception
(caught by the generic except clause). -/
inductive HandlerOutcome (A : Type) where
  | ok (result : A)
  | httpExc (status : Nat) (detail : String)
  | unexpected (msg : String)
deriving DecidableEq, Repr

/-- A command handler: (user_id, payload, store) to an outcome plus the
store it leaves behind (app/commands/router.py line 32). -/
def CommandHandler (P S A : Type) : Type :=
  String → P → S → HandlerOutcome A × S

/-- What the transport layer sees from one /execute call after
authentication: an HTTP 200 carrying the envelope, or a native
transport-level error status. -/
inductive RouterResult (A : Type) where
  | envelope (resp : CommandResponse A)
  | transport (status : Nat) (detail : String)
deriving DecidableEq, Repr

/-- Dictionary lookup in the ACTION_HANDLERS registry. -/
def lookupHandler {P S A : Type} (registry : List (String × CommandHandler P S A))
    (action : String) : Option (CommandHandler P S A) :=
  (registry.find? (fun h => h.1 == action)).map Prod.snd

/-- execute_command (app/commands/router.py lines 109-335), after the
validate_service_key dependency has succeeded: unknown actions raise a
native 404; a handler result is wrapped in a success envelope; an
HTTPException from the handler is re-raised unchanged; any other
exception becomes a success-false envelope under an HTTP 200. -/
def execute_command {P S A : Type} (registry : List (String × CommandHandler P S A))
    (command : CommandRequest P) (db : S) (now : Int) : RouterResult A × S :=
  match lookupHandler registry command.action with
  | none =>
    (RouterResult.transport 404 ("Unknown action: " ++ command.action), db)
  | some handler =>
    match handler command.user_id command.payload db with
    | (HandlerOutcome.ok result, db2) =>
      (RouterResult.envelope ⟨true, some result, none, now⟩, db2)
    | (HandlerOutcome.httpExc s d, db2) => (RouterResult.transport s d, db2)
    | (HandlerOutcome.unexpected msg, db2) =>
      (RouterResult.envelope ⟨false, none, some msg, now⟩, db2)

/-- One row of the tasks table (migration 92389ddb0a57).  Task ids are
the canonical textual form of the UUID column. -/
structure TaskRow where
  id : String
  user_id : String
  title : String
  description : Option String
  status : String
  priority : Option String
  created_at : Int
  completed_at : Option Int
  due_date : Option Int
deriving DecidableEq, Repr

/-- The payload dictionary as the task handlers read it: each field is
present (non-null) or absent.  A field sent as JSON null is dropped by
model_dump with exclude_none, so it equals an absent one; keys outside
this set are ignored by the pydantic models. -/
structure TaskPayload where
  task_id : Option String := none
  title : Option String := none
  description : Option String := none
  status : Option String := none
  priority : Option String := none
  due_date : Option Int := none
deriving DecidableEq, Repr

/-- Hex digit in either case, as UUID text admits. -/
def isHexDigitChar (c : Char) : Bool :=
  "0123456789abcdefABCDEF".data.contains c

/-- The canonical hyphenated 8-4-4-4-12 UUID text form. -/
def validUUID (s : String) : Bool :=
  s.data.length == 36 &&
  (List.range 36).all (fun i =>
    if i == 8 || i == 13 || i == 18 || i == 23 then s.data.getD i ' ' == '-'
    else isHexDigitChar (s.data.getD i ' '))

/-- Models Python uuid.UUID(task_id) restricted to the canonical
hyphenated form the service itself produces: accept and lowercase it,
reject anything else (ValueError). -/
def parse_uuid (s : String) : Option String :=
  if validUUID s then some (String.mk (s.data.map Char.toLower)) else none

/-- The status pattern of TaskCreate/TaskUpdate (app/models/task.py). -/
def validStatus (s : String) : Bool :=
  s == "pending" || s == "in_progress" || s == "completed"

/-- The priority pattern of TaskCreate/TaskUpdate (app/models/task.py). -/
def validPriority (s : String) : Bool :=
  s == "low" || s == "medium" || s == "high" || s == "urgent"

/-- TaskUpdate validation (app/models/task.py lines 61-75): title at
most 500 characters, status and priority against their patterns;
description and due_date unconstrained. -/
def taskUpdateValid (p : TaskPayload) : Bool :=
  (match p.title with
    | none => true
    | some t => decide (t.length ≤ 500)) &&
  (match p.status with
    | none => true
    | some s => validStatus s) &&
  (match p.priority with
    | none => true
    | some s => validPriority s)

/-- At least one updatable field present (the update_dict of
update_task_handler is non-empty). -/
def hasUpdateFields (p : TaskPayload) : Bool :=
  p.title.isSome || p.description.isSome || p.status.isSome ||
    p.priority.isSome || p.due_date.isSome

/-- The SET clause of update_task_handler (tasks.py lines 370-389)
applied to one row: each present field overwrites the column, absent
fields leave it, and completed_at follows the status value — NOW() when
it is set to completed, NULL when set to anything else, untouched when
status is absent. -/
def applyUpdate (p : TaskPayload) (now : Int) (t : TaskRow) : TaskRow :=
  let t1 : TaskRow :=
    { t with
      title := p.title.getD t.title,
      description := (match p.description with
        | some d => some d
        | none => t.description),
      status := p.status.getD t.status,
      priority := (match p.priority with
        | some x => some x
        | none => t.priority),
      due_date := (match p.due_date with
        | some x => some x
        | none => t.due_date) }
  match p.status with
  | some s =>
    if s == "completed" then { t1 with completed_at := some now }
    else { t1 with completed_at := none }
  | none => t1

/-- get_task_handler (tasks.py lines 195-290): falsy or malformed
task_id is a 400, lookup is by id alone (no ownership check; user_id is
only logged), a missing row is a 404, otherwise the row is returned and
the store untouched. -/
def get_task_handler (_user_id : String) (payload : TaskPayload)
    (db : List TaskRow) : HandlerOutcome TaskRow × List TaskRow :=
  match payload.task_id with
  | none => (HandlerOutcome.httpExc 400 "Missing required field: task_id", db)
  | some tid =>
    if tid == "" then
      (HandlerOutcome.httpExc 400 "Missing required field: task_id", db)
    else
      match parse_uuid tid with
      | none => (HandlerOutcome.httpExc 400 "Invalid UUID format for task_id", db)
      | some tuuid =>
        match db.find? (fun t => t.id == tuuid) with
        | none => (HandlerOutcome.httpExc 404 ("Task not found: " ++ tuuid), db)
        | some t => (HandlerOutcome.ok t, db)

/-- The stand-in for the str(pydantic ValidationError) detail of
update_task_handler, whose exact text the library generates. -/
def taskUpdateValidationDetail : String := "validation error for TaskUpdate"

/-- update_task_handler (tasks.py lines 293-429): falsy or malformed
task_id is a 400, invalid fields are a 400, an empty update set is a
400, a missing row is a 404; otherwise the SET clause of applyUpdate is
applied to the row with that id and the updated row returned.  user_id
is only logged. -/
def update_task_handler (_user_id : String) (payload : TaskPayload)
    (db : List TaskRow) (now : Int) : HandlerOutcome TaskRow × List TaskRow :=
  match payload.task_id with
  | none => (HandlerOutcome.httpExc 400 "Missing required field: task_id", db)
  | some tid =>
    if tid == "" then
      (HandlerOutcome.httpExc 400 "Missing required field: task_id", db)
    else
      match parse_uuid tid with
      | none => (HandlerOutcome.httpExc 400 "Invalid UUID format for task_id", db)
      | some tuuid =>
        if ¬ taskUpdateValid payload then
          (HandlerOutcome.httpExc 400 taskUpdateValidationDetail, db)
        else if ¬ hasUpdateFields payload then
          (HandlerOutcome.httpExc 400 "No fields provided for update", db)
        else
          match db.find? (fun t => t.id == tuuid) with
          | none => (HandlerOutcome.httpExc 404 ("Task not found: " ++ tuuid), db)
          | some t =>
            (HandlerOutcome.ok (applyUpdate payload now t),
             db.map (fun x => if x.id == tuuid then applyUpdate payload now x else x))

/-- Response body of delete_task_handler. -/
structure DeleteTaskResult where
  success : Bool
  deleted_id : String
deriving DecidableEq, Repr

/-- delete_task_handler (tasks.py lines 432-521): falsy or malformed
task_id is a 400, a missing row is a 404, otherwise the row with that id
is deleted (by id alone, no ownership check; user_id is only logged) and
a confirmation returned. -/
def delete_task_handler (_user_id : String) (payload : TaskPayload)
    (db : List TaskRow) : HandlerOutcome DeleteTaskResult × List TaskRow :=
  match payload.task_id with
  | none => (HandlerOutcome.httpExc 400 "Missing required field: task_id", db)
  | some tid =>
    if tid == "" then
      (HandlerOutcome.httpExc 400 "Missing required field: task_id", db)
    else
      match parse_uuid tid with
      | none => (HandlerOutcome.httpExc 400 "Invalid UUID format for task_id", db)
      | some tuuid =>
        match db.find? (fun t => t.id == tuuid) with
        | none => (HandlerOutcome.httpExc 404 ("Task not found: " ++ tuuid), db)
        | some _ =>
          (HandlerOutcome.ok ⟨true, tuuid⟩,
           db.filter (fun x => !(x.id == tuuid)))

/-- A one-action registry with a constant handler, for the witness. -/
def constHandler : CommandHandler Unit Unit Nat :=
  fun _ _ db => (HandlerOutcome.ok 7, db)

/-- A concrete update payload for the witness: set status to completed. -/
def sampleUpdatePayload : TaskPayload :=
  { task_id := some "550e8400-e29b-41d4-a716-446655440000",
    status := some "completed" }

/-- A concrete stored task for the witness. -/
def sampleTask : TaskRow :=
  ⟨"550e8400-e29b-41d4-a716-446655440000", "user_123", "buy cat food", none,
   "pending", none, 0, none, none⟩

/-- The row a concurrent issuer commits between the pre-check and the
INSERT, for the C5 failing input. -/
def raceRow : ServiceKeyRow := ⟨1, "svc", "sk_prod_deadbeef", true, 0, none⟩

theorem hexEncode_length (bs : List Nat) : (hexEncode bs).length = 2 * bs.length := by
  have h : ((bs.map byteToHex).flatten).length = 2 * bs.length := by
    induction bs with
    | nil => simp
    | cons b t ih =>
      simp only [List.map_cons, List.flatten_cons, List.length_append, ih,
        byteToHex, List.length_cons, List.length_nil, List.length_cons]
      omega
  simpa [hexEncode, String.length] using h

theorem hexDigit_hex : ∀ n < 16, isHexLowerChar (hexDigit n) = true := by decide

theorem hexEncode_chars (bs : List Nat) (hb : ∀ b ∈ bs, b < 256) :
    ∀ c ∈ (hexEncode bs).data, isHexLowerChar c = true := by
  induction bs with
  | nil => intro c hc; simp [hexEncode] at hc
  | cons b t ih =>
    intro c hc
    have hb0 : b < 256 := hb b (List.mem_cons_self b t)
    simp only [hexEncode, String.mk, List.map_cons, List.flatten_cons, byteToHex,
      List.cons_append, List.nil_append, List.mem_cons] at hc
    rcases hc with h1 | h1 | h1
    · subst h1
      exact hexDigit_hex (b / 16) (Nat.div_lt_of_lt_mul (by omega))
    · subst h1
      exact hexDigit_hex (b % 16) (Nat.mod_lt b (by omega))
    · exact ih (fun x hx => hb x (List.mem_cons_of_mem b hx)) c h1

/-- C6: for environment prod or dev, generate_service_key returns
sk_{environment}_{hex of the 32 drawn bytes} — a 64-character lowercase
hex payload, total length 72 for prod and 71 for dev — and for any other
environment it fails with a ValueError naming the invalid value and the
allowed set.  The model is a pure function of the environment and the
drawn bytes: it takes no store and has no side effect. -/
theorem generate_key_format (env : String) (bytes : List Nat) :
    ((env = "prod" ∨ env = "dev") →
      generate_service_key env bytes =
        Except.ok ("sk_" ++ env ++ "_" ++ hexEncode bytes) ∧
      (bytes.length = 32 →
        ("sk_" ++ env ++ "_" ++ hexEncode bytes).length =
          if env = "prod" then 72 else 71) ∧
      ((∀ b ∈ bytes, b < 256) →
        ∀ c ∈ (hexEncode bytes).data, isHexLowerChar c = true)) ∧
    (¬ (env = "prod" ∨ env = "dev") →
      generate_service_key env bytes =
        Except.error ("Invalid environment: " ++ env ++
          ". Must be \x27prod\x27 or \x27dev\x27")) := by
  constructor
  · intro henv
    refine ⟨by simp [generate_service_key, henv], ?_, fun hb => hexEncode_chars bytes hb⟩
    intro hlen
    have h64 : (hexEncode bytes).length = 64 := by rw [hexEncode_length, hlen]
    rcases henv with h | h <;> subst h <;>
      simp [String.length_append, h64] <;> rfl
  · intro henv
    simp only [generate_service_key, if_neg henv]

theorem generate_key_format_witness :
    generate_service_key "dev" [0] =
      Except.ok ("sk_" ++ "dev" ++ "_" ++ hexEncode [0]) :=
  ((generate_key_format "dev" [0]).1 (Or.inr rfl)).1

theorem keyUsable_iff (now : Int) (r : ServiceKeyRow) :
    keyUsable now r = true ↔
      r.active = true ∧
        (r.expires_at = none ∨ ∃ t, r.expires_at = some t ∧ now < t) := by
  cases h : r.expires_at <;> simp [keyUsable, h]

/-- C2: validation succeeds exactly when the store holds a row whose
api_key equals the presented secret, active, with expires_at null or
strictly in the future; on success the returned key_name is that of a
matching row; on any failure the error is the one undifferentiated 401
value, identical across the three causes. -/
theorem validate_key_iff (store : List ServiceKeyRow) (now : Int) (s : String) :
    ((∃ kn, validate_service_key store now s = Except.ok kn) ↔
      ∃ r ∈ store, r.api_key = s ∧ r.active = true ∧
        (r.expires_at = none ∨ ∃ t, r.expires_at = some t ∧ now < t)) ∧
    (∀ kn, validate_service_key store now s = Except.ok kn →
      ∃ r ∈ store, r.api_key = s ∧ r.active = true ∧
        (r.expires_at = none ∨ ∃ t, r.expires_at = some t ∧ now < t) ∧
        r.key_name = kn) ∧
    (∀ e, validate_service_key store now s = Except.error e →
      e = unauthorizedError) := by
  have hok : ∀ kn, validate_service_key store now s = Except.ok kn →
      ∃ r ∈ store, r.api_key = s ∧ r.active = true ∧
        (r.expires_at = none ∨ ∃ t, r.expires_at = some t ∧ now < t) ∧
        r.key_name = kn := by
    intro kn hkn
    unfold validate_service_key at hkn
    cases hfind : store.find? (fun r => r.api_key == s && keyUsable now r) with
    | none => rw [hfind] at hkn; exact absurd hkn (by simp)
    | some r =>
      rw [hfind] at hkn
      have hmem := List.mem_of_find?_eq_some hfind
      have hp := List.find?_some hfind
      simp only [Bool.and_eq_true, beq_iff_eq] at hp
      have hu := (keyUsable_iff now r).mp hp.2
      exact ⟨r, hmem, hp.1, hu.1, hu.2, by injection hkn⟩
  refine ⟨⟨fun ⟨kn, hkn⟩ => ?_, fun ⟨r, hmem, hkey, hact, hexp⟩ => ?_⟩, hok, ?_⟩
  · obtain ⟨r, hmem, h1, h2, h3, _⟩ := hok kn hkn
    exact ⟨r, hmem, h1, h2, h3⟩
  · unfold validate_service_key
    cases hfind : store.find? (fun r => r.api_key == s && keyUsable now r) with
    | none =>
      exfalso
      have := List.find?_eq_none.mp hfind r hmem
      simp only [Bool.and_eq_true, beq_iff_eq, not_and] at this
      exact this hkey ((keyUsable_iff now r).mpr ⟨hact, hexp⟩)
    | some r2 => exact ⟨r2.key_name, rfl⟩
  · intro e he
    unfold validate_service_key at he
    cases hfind : store.find? (fun r => r.api_key == s && keyUsable now r) with
    | none => rw [hfind] at he; exact (Except.error.inj he).symm
    | some r => rw [hfind] at he; exact absurd he (by simp)

theorem validate_key_iff_witness :
    ∃ kn, validate_service_key [⟨1, "svc", "sk_dev_aa", true, 0, none⟩] 5
      "sk_dev_aa" = Except.ok kn :=
  (validate_key_iff [⟨1, "svc", "sk_dev_aa", true, 0, none⟩] 5 "sk_dev_aa").1.mpr
    ⟨⟨1, "svc", "sk_dev_aa", true, 0, none⟩, by simp, rfl, rfl, Or.inl rfl⟩

/-- C7: with a registered action, a handler result is answered as HTTP
200 with the envelope success-true/data/error-null; an HTTPException
raised by the handler propagates unchanged as a native transport error,
bypassing the envelope; any other exception is answered as HTTP 200 with
the envelope success-false/data-null/error = string of the exception;
and every envelope the router builds has exactly one of data and error
non-null, matching its success flag. -/
theorem router_two_tier {P S A : Type}
    (registry : List (String × CommandHandler P S A))
    (command : CommandRequest P) (db : S) (now : Int) (h : CommandHandler P S A)
    (hlook : lookupHandler registry command.action = some h) :
    (∀ r db2, h command.user_id command.payload db = (HandlerOutcome.ok r, db2) →
      execute_command registry command db now =
        (RouterResult.envelope ⟨true, some r, none, now⟩, db2)) ∧
    (∀ s d db2,
      h command.user_id command.payload db = (HandlerOutcome.httpExc s d, db2) →
      execute_command registry command db now = (RouterResult.transport s d, db2)) ∧
    (∀ m db2,
      h command.user_id command.payload db = (HandlerOutcome.unexpected m, db2) →
      execute_command registry command db now =
        (RouterResult.envelope ⟨false, none, some m, now⟩, db2)) ∧
    (∀ resp db2,
      execute_command registry command db now = (RouterResult.envelope resp, db2) →
      (resp.success = true ∧ resp.data ≠ none ∧ resp.error = none) ∨
      (resp.success = false ∧ resp.data = none ∧ resp.error ≠ none)) := by
  have hred : execute_command registry command db now =
      match h command.user_id command.payload db with
      | (HandlerOutcome.ok result, db2) =>
        (RouterResult.envelope ⟨true, some result, none, now⟩, db2)
      | (HandlerOutcome.httpExc s d, db2) => (RouterResult.transport s d, db2)
      | (HandlerOutcome.unexpected msg, db2) =>
        (RouterResult.envelope ⟨false, none, some msg, now⟩, db2) := by
    unfold execute_command
    rw [hlook]
  refine ⟨?_, ?_, ?_, ?_⟩
  · intro r db2 hr
    rw [hred, hr]
  · intro s d db2 hr
    rw [hred, hr]
  · intro m db2 hr
    rw [hred, hr]
  · intro resp db2 heq
    rw [hred] at heq
    rcases hout : h command.user_id command.payload db with ⟨out, db3⟩
    rw [hout] at heq
    cases out with
    | ok r =>
      simp only [Prod.mk.injEq, RouterResult.envelope.injEq] at heq
      left
      rw [← heq.1]
      exact ⟨rfl, by simp, rfl⟩
    | httpExc s d => exact absurd heq (by simp)
    | unexpected m =>
      simp only [Prod.mk.injEq, RouterResult.envelope.injEq] at heq
      right
      rw [← heq.1]
      exact ⟨rfl, rfl, by simp⟩

theorem router_two_tier_witness :
    execute_command [("act", constHandler)]
      (CommandRequest.mk "act" "u" ()) () 0 =
      (RouterResult.envelope ⟨true, some 7, none, 0⟩, ()) :=
  (router_two_tier [("act", constHandler)] (CommandRequest.mk "act" "u" ()) () 0
    constHandler rfl).1 7 () rfl

/-- C8: an authenticated, structurally valid request whose action is not
registered is answered with a native transport 404 whose detail is
exactly "Unknown action: " followed by the action, no envelope, the
store untouched and no handler run. -/
theorem unknown_action_404 {P S A : Type}
    (registry : List (String × CommandHandler P S A))
    (command : CommandRequest P) (db : S) (now : Int)
    (hlook : lookupHandler registry command.action = none) :
    execute_command registry command db now =
      (RouterResult.transport 404 ("Unknown action: " ++ command.action), db) := by
  unfold execute_command
  rw [hlook]

theorem unknown_action_404_witness :
    execute_command ([] : List (String × CommandHandler Unit Unit Nat))
      (CommandRequest.mk "no-such-action" "u" ()) () 0 =
      (RouterResult.transport 404 ("Unknown action: " ++ "no-such-action"), ()) :=
  unknown_action_404 [] (CommandRequest.mk "no-such-action" "u" ()) () 0 rfl

/-- C10: get_task_handler, update_task_handler and delete_task_handler
select their row by task_id alone; the caller-asserted user_id reaches
only logging calls (dropped from the model), so outcome and resulting
store are identical for every user_id — any authenticated key holder can
read, modify or delete any task from its UUID. -/
theorem task_handlers_ignore_user_id (u1 u2 : String) (p : TaskPayload)
    (db : List TaskRow) (now : Int) :
    get_task_handler u1 p db = get_task_handler u2 p db ∧
    update_task_handler u1 p db now = update_task_handler u2 p db now ∧
    delete_task_handler u1 p db = delete_task_handler u2 p db :=
  ⟨rfl, rfl, rfl⟩

theorem applyUpdate_fields (p : TaskPayload) (now : Int) (t : TaskRow) :
    (applyUpdate p now t).id = t.id ∧
    (applyUpdate p now t).user_id = t.user_id ∧
    (applyUpdate p now t).created_at = t.created_at ∧
    (applyUpdate p now t).title = p.title.getD t.title ∧
    (applyUpdate p now t).description =
      (match p.description with | some d => some d | none => t.description) ∧
    (applyUpdate p now t).status = p.status.getD t.status ∧
    (applyUpdate p now t).priority =
      (match p.priority with | some x => some x | none => t.priority) ∧
    (applyUpdate p now t).due_date =
      (match p.due_date with | some x => some x | none => t.due_date) ∧
    (applyUpdate p now t).completed_at =
      (match p.status with
        | some s => if s == "completed" then some now else none
        | none => t.completed_at) := by
  unfold applyUpdate
  cases hs : p.status with
  | none => simp
  | some s => by_cases hc : s == "completed" <;> simp [hc]

/-- C9: update-task partial update — with an existing target row and a
valid non-empty payload, exactly the payload's present fields are
written, every other column of the row keeps its prior value, every
other row is untouched, and the derived completed_at follows the status
field: set to now when status is updated to completed, cleared to null
when status is updated to any other value, left unchanged when status is
absent from the payload. -/
theorem update_task_frame (u : String) (p : TaskPayload) (db : List TaskRow)
    (now : Int) (tid tuuid : String) (t : TaskRow)
    (htid : p.task_id = some tid) (hne : tid ≠ "")
    (hparse : parse_uuid tid = some tuuid)
    (hvalid : taskUpdateValid p = true)
    (hfields : hasUpdateFields p = true)
    (hfind : db.find? (fun x => x.id == tuuid) = some t)
    (huniq : ∀ x ∈ db, x.id = t.id → x = t) :
    update_task_handler u p db now =
      (HandlerOutcome.ok (applyUpdate p now t),
       db.map (fun x => if x = t then applyUpdate p now t else x)) ∧
    ((applyUpdate p now t).id = t.id ∧
     (applyUpdate p now t).user_id = t.user_id ∧
     (applyUpdate p now t).created_at = t.created_at) ∧
    (p.title = none → (applyUpdate p now t).title = t.title) ∧
    (∀ v, p.title = some v → (applyUpdate p now t).title = v) ∧
    (p.description = none → (applyUpdate p now t).description = t.description) ∧
    (∀ v, p.description = some v → (applyUpdate p now t).description = some v) ∧
    (p.status = none → (applyUpdate p now t).status = t.status) ∧
    (∀ v, p.status = some v → (applyUpdate p now t).status = v) ∧
    (p.priority = none → (applyUpdate p now t).priority = t.priority) ∧
    (∀ v, p.priority = some v → (applyUpdate p now t).priority = some v) ∧
    (p.due_date = none → (applyUpdate p now t).due_date = t.due_date) ∧
    (∀ v, p.due_date = some v → (applyUpdate p now t).due_date = some v) ∧
    (p.status = some "completed" → (applyUpdate p now t).completed_at = some now) ∧
    (∀ s, p.status = some s → s ≠ "completed" →
      (applyUpdate p now t).completed_at = none) ∧
    (p.status = none → (applyUpdate p now t).completed_at = t.completed_at) := by
  obtain ⟨hid, huser, hcre, htit, hdesc, hstat, hprio, hdue, hcomp⟩ :=
    applyUpdate_fields p now t
  have htuuid : t.id = tuuid := by
    have := List.find?_some hfind
    simpa using this
  refine ⟨?_, ⟨hid, huser, hcre⟩, ?_, ?_, ?_, ?_, ?_, ?_, ?_, ?_, ?_, ?_, ?_, ?_, ?_⟩
  · have hne2 : (tid == "") = false := by simpa using hne
    have hmap : db.map (fun x => if x.id == tuuid then applyUpdate p now x else x)
        = db.map (fun x => if x = t then applyUpdate p now t else x) := by
      apply List.map_congr_left
      intro x hx
      by_cases hxe : x = t
      · subst hxe
        simp [htuuid]
      · have hxid : (x.id == tuuid) = false := by
          apply beq_eq_false_iff_ne.mpr
          intro hcontra
          exact hxe (huniq x hx (by rw [hcontra, htuuid]))
        simp [hxid, hxe]
    unfold update_task_handler
    simp only [htid, hne2, hparse, hvalid, hfields, hfind, Bool.false_eq_true,
      if_false, eq_self_iff_true, not_true, ite_false, ite_true, if_true,
      Bool.true_eq_false]
    rw [hmap]
  · intro h; rw [htit, h]; rfl
  · intro v h; rw [htit, h]; rfl
  · intro h; rw [hdesc, h]
  · intro v h; rw [hdesc, h]
  · intro h; rw [hstat, h]; rfl
  · intro v h; rw [hstat, h]; rfl
  · intro h; rw [hprio, h]
  · intro v h; rw [hprio, h]
  · intro h; rw [hdue, h]
  · intro v h; rw [hdue, h]
  · intro h; rw [hcomp, h]; rfl
  · intro s h hs; rw [hcomp, h]; simp [hs]
  · intro h; rw [hcomp, h]

theorem update_task_frame_witness :
    update_task_handler "user_123" sampleUpdatePayload [sampleTask] 100 =
      (HandlerOutcome.ok (applyUpdate sampleUpdatePayload 100 sampleTask),
       [sampleTask].map (fun x => if x = sampleTask then
         applyUpdate sampleUpdatePayload 100 sampleTask else x)) :=
  (update_task_frame "user_123" sampleUpdatePayload [sampleTask] 100
    "550e8400-e29b-41d4-a716-446655440000"
    "550e8400-e29b-41d4-a716-446655440000" sampleTask rfl (by decide)
    (by decide) rfl rfl rfl (by decide)).1

/-- C4: issuance with a key_name already present in the store (any
status) fails with the 400 DuplicateKeyName error whose detail contains
the key_name, inserting nothing; otherwise exactly one new active,
non-expiring row is inserted and the full record, plaintext secret
included, is returned (served as HTTP 201). -/
theorem issue_key_spec (store : List ServiceKeyRow) (kn env : String)
    (bytes : List Nat) (now : Int) (newId : Nat)
    (henv : env = "prod" ∨ env = "dev") :
    (store.any (fun r => r.key_name == kn) = true →
      create_service_key store [] kn env bytes now newId =
        (AdminOutcome.httpError 400
          ("Service key with name \x27" ++ kn ++ "\x27 already exists"),
         store)) ∧
    (store.any (fun r => r.key_name == kn) = false →
      store.any (fun r =>
        r.api_key == ("sk_" ++ env ++ "_" ++ hexEncode bytes)) = false →
      create_service_key store [] kn env bytes now newId =
        (AdminOutcome.ok ⟨newId, kn, "sk_" ++ env ++ "_" ++ hexEncode bytes, now⟩,
         store ++
           [⟨newId, kn, "sk_" ++ env ++ "_" ++ hexEncode bytes, true, now,
             none⟩])) := by
  have hgen : generate_service_key env bytes =
      Except.ok ("sk_" ++ env ++ "_" ++ hexEncode bytes) := by
    simp [generate_service_key, henv]
  constructor
  · intro hdup
    unfold create_service_key
    simp [hdup]
  · intro hnodup hfresh
    unfold create_service_key
    simp [hnodup, hgen, hfresh]

theorem issue_key_spec_witness :
    create_service_key [⟨1, "svc", "sk_prod_aa", true, 0, none⟩] [] "svc"
      "prod" [0] 5 2 =
      (AdminOutcome.httpError 400
        ("Service key with name \x27" ++ "svc" ++ "\x27 already exists"),
       [⟨1, "svc", "sk_prod_aa", true, 0, none⟩]) :=
  (issue_key_spec [⟨1, "svc", "sk_prod_aa", true, 0, none⟩] "svc" "prod" [0] 5 2
    (Or.inl rfl)).1 rfl

/-- C5 (code bug): when the concurrent insert of the same key_name lands
between the pre-check and the INSERT, the store's unique-constraint
violation escapes create_service_key uncaught — an infrastructure
failure (HTTP 500), not the authoritative DuplicateKeyName 400 the spec
prescribes. -/
theorem issue_race_uncaught :
    create_service_key [] [raceRow] "svc" "prod" [0] 5 2 =
      (AdminOutcome.raised (uniqueViolationMsg "service_api_keys_key_name_key"),
       [raceRow]) := rfl

theorem selectActiveKey_mem (store : List ServiceKeyRow) (k : String)
    (r : ServiceKeyRow) (h : selectActiveKey store k = some r) :
    r ∈ store ∧ r.key_name = k ∧ r.active = true := by
  induction store with
  | nil => simp [selectActiveKey] at h
  | cons a rest ih =>
    unfold selectActiveKey at h
    by_cases hc : (a.key_name == k && a.active) = true
    · rw [if_pos hc] at h
      simp only [Bool.and_eq_true, beq_iff_eq] at hc
      cases hsel : selectActiveKey rest k with
      | none =>
        simp only [hsel] at h
        injection h with h
        subst h
        exact ⟨List.mem_cons_self a rest, hc.1, hc.2⟩
      | some best =>
        simp only [hsel] at h
        by_cases hlt : a.created_at < best.created_at
        · rw [if_pos hlt] at h
          injection h with h
          subst h
          have hb := ih hsel
          exact ⟨List.mem_cons_of_mem a hb.1, hb.2⟩
        · rw [if_neg hlt] at h
          injection h with h
          subst h
          exact ⟨List.mem_cons_self a rest, hc.1, hc.2⟩
    · rw [if_neg hc] at h
      have hb := ih h
      exact ⟨List.mem_cons_of_mem a hb.1, hb.2⟩

theorem selectActiveKey_none (store : List ServiceKeyRow) (k : String)
    (h : selectActiveKey store k = none) :
    ∀ x ∈ store, ¬ (x.key_name = k ∧ x.active = true) := by
  induction store with
  | nil => simp
  | cons a rest ih =>
    unfold selectActiveKey at h
    by_cases hc : (a.key_name == k && a.active) = true
    · rw [if_pos hc] at h
      cases hsel : selectActiveKey rest k with
      | none => simp only [hsel] at h; exact absurd h (by simp)
      | some best =>
        simp only [hsel] at h
        by_cases hlt : a.created_at < best.created_at
        · rw [if_pos hlt] at h; exact absurd h (by simp)
        · rw [if_neg hlt] at h; exact absurd h (by simp)
    · rw [if_neg hc] at h
      intro x hx
      rcases List.mem_cons.mp hx with hxa | hxm
      · subst hxa
        intro hcon
        exact hc (by simp [hcon.1, hcon.2])
      · exact ih h x hxm

theorem selectActiveKey_latest (store : List ServiceKeyRow) (k : String) :
    ∀ r, selectActiveKey store k = some r →
    ∀ x ∈ store, x.key_name = k → x.active = true →
      x.created_at ≤ r.created_at := by
  induction store with
  | nil => intro r h; simp [selectActiveKey] at h
  | cons a rest ih =>
    intro r h x hx hxk hxa
    unfold selectActiveKey at h
    by_cases hc : (a.key_name == k && a.active) = true
    · rw [if_pos hc] at h
      cases hsel : selectActiveKey rest k with
      | none =>
        simp only [hsel] at h
        injection h with h
        subst h
        rcases List.mem_cons.mp hx with hxe | hxm
        · subst hxe; exact le_refl _
        · exact absurd ⟨hxk, hxa⟩ (selectActiveKey_none rest k hsel x hxm)
      | some best =>
        simp only [hsel] at h
        by_cases hlt : a.created_at < best.created_at
        · rw [if_pos hlt] at h
          injection h with h
          subst h
          rcases List.mem_cons.mp hx with hxe | hxm
          · subst hxe; exact le_of_lt hlt
          · exact ih best hsel x hxm hxk hxa
        · rw [if_neg hlt] at h
          injection h with h
          subst h
          rcases List.mem_cons.mp hx with hxe | hxm
          · subst hxe; exact le_refl _
          · exact le_trans (ih best hsel x hxm hxk hxa) (not_lt.mp hlt)
    · rw [if_neg hc] at h
      rcases List.mem_cons.mp hx with hxe | hxm
      · subst hxe; exact absurd (by simp [hxk, hxa]) hc
      · exact ih r h x hxm hxk hxa

theorem find_updated_old (store : List ServiceKeyRow) (r : ServiceKeyRow)
    (expiry t : Int) (hmem : r ∈ store) (hact : r.active = true)
    (huniq : ∀ x ∈ store, x.api_key = r.api_key → x = r) (ht : t < expiry) :
    (store.map (fun x => if x.api_key == r.api_key
        then { x with expires_at := some expiry } else x)).find?
      (fun y => y.api_key == r.api_key && keyUsable t y) =
      some { r with expires_at := some expiry } := by
  induction store with
  | nil => simp at hmem
  | cons a rest ih =>
    by_cases hae : a = r
    · subst hae
      simp only [List.map_cons, beq_self_eq_true, if_true, ite_true]
      exact List.find?_cons_of_pos _ (by simp [keyUsable, hact, ht])
    · have hra : (a.api_key == r.api_key) = false :=
        beq_eq_false_iff_ne.mpr (fun hc => hae (huniq a (List.mem_cons_self a rest) hc))
      have hmem2 : r ∈ rest := by
        rcases List.mem_cons.mp hmem with he | hm
        · exact absurd he.symm hae
        · exact hm
      have htail := ih hmem2 (fun x hx hxk => huniq x (List.mem_cons_of_mem a hx) hxk)
      simp only [List.map_cons, hra, Bool.false_eq_true, if_false, ite_false]
      exact (List.find?_cons_of_neg _ (by simp [hra])).trans htail

theorem find_old_after_expiry (store : List ServiceKeyRow) (oldKey : String)
    (expiry t : Int) (ht : expiry ≤ t) :
    (store.map (fun x => if x.api_key == oldKey
        then { x with expires_at := some expiry } else x)).find?
      (fun y => y.api_key == oldKey && keyUsable t y) = none := by
  apply List.find?_eq_none.mpr
  intro x hx
  rcases List.mem_map.mp hx with ⟨y, hy, rfl⟩
  by_cases hk : (y.api_key == oldKey) = true
  · rw [if_pos hk]
    simp [keyUsable, not_lt.mpr ht]
  · rw [if_neg hk]
    simp only [Bool.and_eq_true, not_and]
    intro hcon
    exact absurd hcon hk

theorem find_fresh_none (store : List ServiceKeyRow) (oldKey s_new : String)
    (expiry t : Int) (hfresh : ∀ y ∈ store, y.api_key ≠ s_new) :
    (store.map (fun x => if x.api_key == oldKey
        then { x with expires_at := some expiry } else x)).find?
      (fun y => y.api_key == s_new && keyUsable t y) = none := by
  apply List.find?_eq_none.mpr
  intro x hx
  rcases List.mem_map.mp hx with ⟨y, hy, rfl⟩
  by_cases hk : (y.api_key == oldKey) = true
  · rw [if_pos hk]
    simp only [Bool.and_eq_true, beq_iff_eq, not_and]
    intro hcon
    exact absurd hcon (hfresh y hy)
  · rw [if_neg hk]
    simp only [Bool.and_eq_true, beq_iff_eq, not_and]
    intro hcon
    exact absurd hcon (hfresh y hy)

theorem rotate_eq (store : List ServiceKeyRow) (k : String) (bytes : List Nat)
    (now : Int) (newId : Nat) (r : ServiceKeyRow) (env : String)
    (hsel : selectActiveKey store k = some r)
    (henv : extractEnv r.api_key = some env)
    (henvok : env = "prod" ∨ env = "dev") :
    rotate_service_key store k bytes now newId =
      (AdminOutcome.ok ⟨"sk_" ++ env ++ "_" ++ hexEncode bytes,
        now + gracePeriodSeconds⟩,
       store.map (fun x => if x.api_key == r.api_key
          then { x with expires_at := some (now + gracePeriodSeconds) } else x)
         ++ [⟨newId, k, "sk_" ++ env ++ "_" ++ hexEncode bytes, true, now,
           none⟩]) := by
  have hgen : generate_service_key env bytes =
      Except.ok ("sk_" ++ env ++ "_" ++ hexEncode bytes) := by
    simp [generate_service_key, henvok]
  unfold rotate_service_key
  simp only [hsel, henv, hgen]

/-- C3: rotation with no active row for the key_name fails with a 404
naming the key and leaves the store unchanged; otherwise the selected
row is an active row of that key_name whose created_at is maximal among
them, its expires_at is set to now plus 7 days with active left true and
every other row untouched, and one new row with the same key_name, a
fresh secret carrying the old secret's environment (the text between its
first and second underscore), active true and expires_at null is
appended; the new secret and the grace expiry are returned. -/
theorem rotate_key_spec (store : List ServiceKeyRow) (k : String)
    (bytes : List Nat) (now : Int) (newId : Nat) :
    (selectActiveKey store k = none →
      rotate_service_key store k bytes now newId =
        (AdminOutcome.httpError 404
          ("Active service key \x27" ++ k ++ "\x27 not found"), store)) ∧
    (∀ r env, selectActiveKey store k = some r →
      (∀ x ∈ store, x.api_key = r.api_key → x = r) →
      extractEnv r.api_key = some env → (env = "prod" ∨ env = "dev") →
      r ∈ store ∧ r.key_name = k ∧ r.active = true ∧
      (∀ x ∈ store, x.key_name = k → x.active = true →
        x.created_at ≤ r.created_at) ∧
      rotate_service_key store k bytes now newId =
        (AdminOutcome.ok ⟨"sk_" ++ env ++ "_" ++ hexEncode bytes,
          now + gracePeriodSeconds⟩,
         store.map (fun x => if x = r
            then { x with expires_at := some (now + gracePeriodSeconds) }
            else x)
           ++ [⟨newId, k, "sk_" ++ env ++ "_" ++ hexEncode bytes, true, now,
             none⟩])) := by
  constructor
  · intro hnone
    unfold rotate_service_key
    simp only [hnone]
  · intro r env hsel huniq henv henvok
    obtain ⟨hmem, hkey, hact⟩ := selectActiveKey_mem store k r hsel
    refine ⟨hmem, hkey, hact, selectActiveKey_latest store k r hsel, ?_⟩
    rw [rotate_eq store k bytes now newId r env hsel henv henvok]
    have hmap : store.map (fun x => if x.api_key == r.api_key
          then { x with expires_at := some (now + gracePeriodSeconds) } else x)
        = store.map (fun x => if x = r
          then { x with expires_at := some (now + gracePeriodSeconds) } else x) := by
      apply List.map_congr_left
      intro x hx
      by_cases hxe : x = r
      · subst hxe; simp
      · have hxk : (x.api_key == r.api_key) = false :=
          beq_eq_false_iff_ne.mpr (fun hc => hxe (huniq x hx hc))
        simp [hxk, hxe]
    rw [hmap]

theorem rotate_key_spec_witness :
    rotate_service_key [⟨1, "svc", "sk_dev_aa", true, 0, none⟩] "svc" [0] 10 2 =
      (AdminOutcome.ok ⟨"sk_" ++ "dev" ++ "_" ++ hexEncode [0],
        10 + gracePeriodSeconds⟩,
       [⟨1, "svc", "sk_dev_aa", true, 0, none⟩].map (fun x =>
         if x = ⟨1, "svc", "sk_dev_aa", true, 0, none⟩
         then { x with expires_at := some (10 + gracePeriodSeconds) } else x)
       ++ [⟨2, "svc", "sk_" ++ "dev" ++ "_" ++ hexEncode [0], true, 10,
         none⟩]) :=
  ((rotate_key_spec [⟨1, "svc", "sk_dev_aa", true, 0, none⟩] "svc" [0] 10 2).2
    ⟨1, "svc", "sk_dev_aa", true, 0, none⟩ "dev" (by decide) (by decide)
    (by decide) (Or.inr rfl)).2.2.2.2

/-- C1: zero-downtime rotation — when the store holds an active row for
key_name k (the one rotation selects, with secret s_old unique in the
store) and the freshly generated secret s_new collides with nothing,
rotation returns s_new with grace expiry now plus 7 days, and in the
resulting store both s_old and s_new validate to k at any instant before
that expiry (s_new at every instant), while from any instant past the
expiry s_old fails with the undifferentiated 401 and s_new still
validates to k. -/
theorem rotation_zero_downtime (store : List ServiceKeyRow) (k env : String)
    (bytes : List Nat) (now : Int) (newId : Nat) (r : ServiceKeyRow)
    (hsel : selectActiveKey store k = some r)
    (huniq : ∀ x ∈ store, x.api_key = r.api_key → x = r)
    (henv : extractEnv r.api_key = some env)
    (henvok : env = "prod" ∨ env = "dev")
    (hfresh : ∀ x ∈ store, x.api_key ≠ "sk_" ++ env ++ "_" ++ hexEncode bytes) :
    (rotate_service_key store k bytes now newId).1 =
      AdminOutcome.ok ⟨"sk_" ++ env ++ "_" ++ hexEncode bytes,
        now + gracePeriodSeconds⟩ ∧
    (∀ t, t < now + gracePeriodSeconds →
      validate_service_key (rotate_service_key store k bytes now newId).2 t
        r.api_key = Except.ok k) ∧
    (∀ t, validate_service_key (rotate_service_key store k bytes now newId).2 t
        ("sk_" ++ env ++ "_" ++ hexEncode bytes) = Except.ok k) ∧
    (∀ t, now + gracePeriodSeconds ≤ t →
      validate_service_key (rotate_service_key store k bytes now newId).2 t
        r.api_key = Except.error unauthorizedError) := by
  obtain ⟨hmem, hkey, hact⟩ := selectActiveKey_mem store k r hsel
  have hrot := rotate_eq store k bytes now newId r env hsel henv henvok
  have hsnew : r.api_key ≠ "sk_" ++ env ++ "_" ++ hexEncode bytes := hfresh r hmem
  refine ⟨by rw [hrot], ?_, ?_, ?_⟩
  · intro t ht
    rw [hrot]
    unfold validate_service_key
    rw [List.find?_append,
      find_updated_old store r (now + gracePeriodSeconds) t hmem hact huniq ht]
    simp [hkey]
  · intro t
    rw [hrot]
    unfold validate_service_key
    rw [List.find?_append,
      find_fresh_none store r.api_key ("sk_" ++ env ++ "_" ++ hexEncode bytes)
        (now + gracePeriodSeconds) t hfresh]
    simp [keyUsable]
  · intro t ht
    rw [hrot]
    unfold validate_service_key
    rw [List.find?_append,
      find_old_after_expiry store r.api_key (now + gracePeriodSeconds) t ht]
    have hne : (("sk_" ++ env ++ "_" ++ hexEncode bytes : String) == r.api_key)
        = false := beq_eq_false_iff_ne.mpr (Ne.symm hsnew)
    simp [hne]

theorem rotation_zero_downtime_witness :
    validate_service_key
      (rotate_service_key [⟨1, "svc", "sk_dev_aa", true, 0, none⟩] "svc" [0]
        10 2).2 20 "sk_dev_aa" = Except.ok "svc" :=
  (rotation_zero_downtime [⟨1, "svc", "sk_dev_aa", true, 0, none⟩] "svc" "dev"
    [0] 10 2 ⟨1, "svc", "sk_dev_aa", true, 0, none⟩ (by decide) (by decide)
    (by decide) (Or.inr rfl) (by decide)).2.1 20 (by decide)
